import Mathlib

/-!
Verification of the PDF-to-HTML conversion service (src/main.py).

The development shallowly embeds the service's pure logic and its effectful
operations.  Effects (the external generative-model API, the filesystem, the
clock) are modelled by explicit oracle parameters, and every effectful
operation additionally returns the list of observable events it performed, so
that call counts and call ordering can be stated and proved.

Conventions:
* Python machine integers do not occur; lengths are Nat, timestamps are Int.
* Sampling temperatures are modelled exactly in the rationals.  (The source
  computes 0.4 + attempt * 0.2 in IEEE doubles; at the values the claims
  mention, 0.4 and 0.8, double arithmetic agrees exactly with the rationals.)
* Fallible calls return Except; a raised Python exception is a PyError value.
-/

deriving instance DecidableEq for Except

namespace PdfGemini

/-! ## Python string primitives used by the source -/

/-- Python substring containment (the binary operator in of Python) on lists
of characters: true iff the first list occurs contiguously in the second. -/
def listContainsSeq : List Char → List Char → Bool
  | needle, [] => needle.isEmpty
  | needle, c :: rest => needle.isPrefixOf (c :: rest) || listContainsSeq needle rest

/-- Python substring test: sub in s. -/
def strContains (sub s : String) : Bool :=
  listContainsSeq sub.data s.data

/-- Python str.rfind for a single character: index of the last occurrence,
or -1 when the character does not occur. -/
def rfindAux (c : Char) : List Char → Option Nat
  | [] => none
  | x :: xs =>
    match rfindAux c xs with
    | some i => some (i + 1)
    | none => if x = c then some 0 else none

/-- Python str.rfind returning -1 for a missing character, as an Int. -/
def py_rfind (c : Char) (l : List Char) : Int :=
  match rfindAux c l with
  | some i => (i : Int)
  | none => -1

/-- os.path.splitext (posixpath): split a path into stem and extension.  The
extension starts at the last dot that comes after the last slash, provided at
least one non-dot character of the basename precedes that dot; otherwise the
extension is empty. -/
def splitext (p : String) : String × String :=
  let l := p.data
  let sepIndex := py_rfind '/' l
  let dotIndex := py_rfind '.' l
  if sepIndex < dotIndex then
    if ((l.drop (sepIndex + 1).toNat).take (dotIndex - (sepIndex + 1)).toNat).any
        (fun ch => ch ≠ '.') then
      ((l.take dotIndex.toNat).asString, (l.drop dotIndex.toNat).asString)
    else (p, "")
  else (p, "")

/-- shorten_filename from src/main.py: shorten a filename to at most
max_length characters, preserving the extension computed by splitext when it
fits, and hard-truncating otherwise. -/
def shorten_filename (filename : String) (max_length : Nat) : String :=
  if filename.length ≤ max_length then filename
  else
    let name := (splitext filename).1
    let ext := (splitext filename).2
    let max_name_length : Int := (max_length : Int) - (ext.length : Int)
    if max_name_length ≤ 0 then (filename.data.take max_length).asString
    else (name.data.take max_name_length.toNat).asString ++ ext

/-! ## Concrete inputs used by witnesses and counterexamples -/

/-- A 52-character filename with a 4-character extension. -/
def long_name : String :=
  String.mk (List.replicate 48 'a') ++ ".pdf"

/-! ## Errors -/

/-- A raised Python exception, as observed by callers: either a FastAPI
HTTPException carrying a status code and detail, or any other exception
carrying its message. -/
inductive PyError where
  | http (status_code : Nat) (detail : String)
  | exn (msg : String)
deriving DecidableEq, Repr

/-- Python str() of an exception: Starlette renders an HTTPException as
status code, colon, space, detail; a plain exception renders as its message. -/
def str_of_err : PyError → String
  | .http c d => toString c ++ ": " ++ d
  | .exn m => m

/-! ## Authentication (create_access_token, get_current_api_key, /token) -/

/-- SECRET_KEY from src/main.py. -/
def SECRET_KEY : String :=
  "09d25e094faa6ca2556c818166b7a9563b93f7099f6f0f4caa6cf63b88e8d3e7"

/-- ALGORITHM from src/main.py. -/
def ALGORITHM : String := "HS256"

/-- ACCESS_TOKEN_EXPIRE_MINUTES from src/main.py. -/
def ACCESS_TOKEN_EXPIRE_MINUTES : Nat := 30

/-- The JWT claim set used by the service: the subject (the wrapped provider
API key) and the expiry timestamp (seconds). -/
structure Claims where
  sub : Option String
  exp : Option Int
deriving DecidableEq, Repr

/-- An encoded bearer token as the verifier sees it.  A well-formed JWT is
characterised by its claims, the key that signed it and the header algorithm;
any structurally invalid token string is malformed. -/
inductive TokenRep where
  | jwt (claims : Claims) (key : String) (alg : String)
  | malformed (raw : String)
deriving DecidableEq, Repr

/-- The Token response model of the /token endpoint. -/
structure Token where
  access_token : TokenRep
  token_type : String
deriving DecidableEq, Repr

/-- create_access_token from src/main.py: copy the payload, set its exp claim
to now plus the given delta (in seconds; default 30 minutes), and sign with
the fixed server secret and algorithm. -/
def create_access_token (now : Int) (data : Claims) (expires_delta : Option Int) :
    TokenRep :=
  let expire : Int :=
    match expires_delta with
    | some d => now + d
    | none => now + 60 * (ACCESS_TOKEN_EXPIRE_MINUTES : Int)
  .jwt { sub := data.sub, exp := some expire } SECRET_KEY ALGORITHM

/-- Model of jose jwt.decode(token, key, algorithms): fails on a malformed
token, a signature made with a different key, a header algorithm outside the
allowed list, or an expired exp claim (exp strictly before now); otherwise
returns the claim set. -/
def jwt_decode (now : Int) (token : TokenRep) (key : String)
    (algorithms : List String) : Except Unit Claims :=
  match token with
  | .malformed _ => .error ()
  | .jwt claims k alg =>
    if k = key ∧ alg ∈ algorithms then
      match claims.exp with
      | some e => if e < now then .error () else .ok claims
      | none => .ok claims
    else .error ()

/-- The single HTTPException raised by the verifier on every failure. -/
def credentials_exception : PyError :=
  .http 401 "Could not validate credentials"

/-- get_current_api_key from src/main.py: decode the bearer token with the
server secret; on any JWT failure, or when the sub claim is absent, fail with
the one fixed credentials exception; otherwise return the embedded API key. -/
def get_current_api_key (now : Int) (token : TokenRep) : Except PyError String :=
  match jwt_decode now token SECRET_KEY [ALGORITHM] with
  | .error _ => .error credentials_exception
  | .ok payload =>
    match payload.sub with
    | none => .error credentials_exception
    | some api_key => .ok api_key

/-- The /token endpoint (get_access_token in src/main.py).  The probe
argument is the outcome of the live genai.list_models() validation call made
with the supplied key: if it fails the endpoint answers 401 Invalid API key,
otherwise it mints a token for the key with a 30-minute expiry. -/
def get_access_token (probe : Except String Unit) (now : Int) (api_key : String) :
    Except PyError Token :=
  match probe with
  | .error _ => .error (.http 401 "Invalid API key")
  | .ok _ =>
    .ok { access_token :=
            create_access_token now { sub := some api_key, exp := none }
              (some (60 * (ACCESS_TOKEN_EXPIRE_MINUTES : Int)))
          token_type := "bearer" }

/-! ## The recitation-retry policy (generate_with_retry) -/

/-- One call to model.generate_content, as the upstream collaborator sees it:
the content handle, the prompt, and the generation_config temperature (none
when no generation_config was passed). -/
structure GenCall (F : Type) where
  content : F
  prompt : String
  temperature : Option ℚ
deriving DecidableEq, Repr

/-- Outcome of one upstream generation call: a response, or a raised
exception whose str() is the given message. -/
inductive GenResult (R : Type) where
  | ok (response : R)
  | err (msg : String)
deriving DecidableEq, Repr

/-- Whether a generation outcome is a failure. -/
def GenResult.isErr : GenResult R → Bool
  | .ok _ => false
  | .err _ => true

/-- The attempt-1 alternative prompt of generate_with_retry, exactly as in
src/main.py (a triple-quoted Python string, whitespace included). -/
def alternative_prompt_1 : String :=
  "\n                        Convert this PDF to clean HTML. Rather than copying the content verbatim:\n                        - Reformat and restructure the content while preserving the meaning\n                        - Maintain heading hierarchies and overall document structure\n                        - Convert tables to HTML table format but adjust formatting slightly\n                        - Focus on preserving the information hierarchy rather than exact reproduction\n                        - Use your own words where appropriate while maintaining the document\x27s integrity\n                        - Completely ignore and omit all images - do not include any img tags or image references\n                        "

/-- The attempt-2 alternative prompt of generate_with_retry, exactly as in
src/main.py. -/
def alternative_prompt_2 : String :=
  "\n                        Extract and organize the key information from this document.\n                        Create an HTML summary that captures the main points, structure, and data,\n                        without reproducing the exact text. Implement proper HTML tables for any tabular data.\n                        Do not include any images, image tags, or image references in the output.\n                        "

/-- The attempt-3 alternative prompt of generate_with_retry, exactly as in
src/main.py. -/
def alternative_prompt_3 : String :=
  "\n                        Create an HTML representation of this document that preserves \n                        the structure and information, but rephrases and restructures content\n                        to avoid direct reproduction while maintaining accuracy.\n                        Exclude all images and image references from the HTML output.\n                        "

/-- The detail of the terminal 422 HTTPException of generate_with_retry,
carrying the original upstream error text. -/
def content_flagged_detail (error_str : String) : String :=
  "Content flagged as potentially copyrighted. Try using a different file or customizing the prompt. Original error: " ++ error_str

/-- The recitation test of src/main.py line 195: the error text contains
RECITATION, or contains both finish_reason and 4. -/
def isRecitationError (error_str : String) : Bool :=
  strContains "RECITATION" error_str ||
    (strContains "finish_reason" error_str && strContains "4" error_str)

/-- The escalation temperature of src/main.py line 200: 0.4 + attempt * 0.2,
so 0.4, 0.6, 0.8 over the three attempts.  (The source computes this in
IEEE doubles; the values relevant to the claims are exact there too.) -/
def retry_temperature (attempt : Nat) : ℚ :=
  0.4 + (attempt : ℚ) * 0.2

/-- The escalation prompt for an attempt index (src/main.py lines 203-226). -/
def retry_prompt (attempt : Nat) : String :=
  if attempt = 0 then alternative_prompt_1
  else if attempt = 1 then alternative_prompt_2
  else alternative_prompt_3

/-- The escalation loop of generate_with_retry (for attempt in
range(max_retries)).  The list argument is the list of remaining attempt
indices; each attempt uses temperature 0.4 + attempt * 0.2 and the prompt for
its index.  A success returns immediately; a failing final attempt raises the
terminal 422; a failing earlier attempt sleeps and continues; an empty range
falls through to re-raising the original error.  The second component is the
list of generation calls made by the loop. -/
def retry_loop (gen : GenCall F → GenResult R) (content : F) (error_str : String)
    (max_retries : Nat) : List Nat → Except PyError R × List (GenCall F)
  | [] => (.error (.exn error_str), [])
  | attempt :: rest =>
    let call : GenCall F :=
      ⟨content, retry_prompt attempt, some (retry_temperature attempt)⟩
    match gen call with
    | .ok response => (.ok response, [call])
    | .err _retry_e =>
      if attempt = max_retries - 1 then
        (.error (.http 422 (content_flagged_detail error_str)), [call])
      else
        ((retry_loop gen content error_str max_retries rest).1,
         call :: (retry_loop gen content error_str max_retries rest).2)

/-- generate_with_retry from src/main.py: call the model once with the
caller's prompt and no generation_config; on a recitation-flavoured failure
run the escalation loop over attempts 0 to max_retries - 1; on any other
failure re-raise it unchanged.  Returns the outcome together with the list of
generation calls made, in order. -/
def generate_with_retry (gen : GenCall F → GenResult R) (content : F)
    (prompt : String) (max_retries : Nat) : Except PyError R × List (GenCall F) :=
  let call0 : GenCall F := ⟨content, prompt, none⟩
  match gen call0 with
  | .ok response => (.ok response, [call0])
  | .err e =>
    if isRecitationError e then
      ((retry_loop gen content e max_retries (List.range max_retries)).1,
       call0 :: (retry_loop gen content e max_retries (List.range max_retries)).2)
    else (.error (.exn e), [call0])

/-! ## The conversion orchestrator (convert_files, process_pdf_from_paths)

F is the type of uploaded-file handles returned by the File API, R the type
of generation responses.  Every effectful step is recorded as an event so
that call counts and ordering are provable. -/

/-- An observable effect of the orchestrator: a File API listing call, a File
API upload call (path, display name, MIME type), a generation call, or the
creation or removal of a temporary local file. -/
inductive Ev (F : Type) where
  | listFiles
  | upload (path display_name mime_type : String)
  | gen (call : GenCall F)
  | tempWrite (path : String)
  | tempRemove (path : String)
deriving DecidableEq, Repr

/-- Whether an event is an upload call to the File API. -/
def Ev.isUpload : Ev F → Bool
  | .upload _ _ _ => true
  | _ => false

/-- Whether an event is a generation call. -/
def Ev.isGen : Ev F → Bool
  | .gen _ => true
  | _ => false

/-- The environment of one conversion request: the behaviour of the external
collaborators and of the nondeterministic parts of the local filesystem.
listing is the File API file listing (display names) or its failure; upload
maps (path, display name, MIME type) to a file handle or a raised error; gen
is the generative model; text and uri read the response text and the handle
URI; uuid gives the uuid4 hex used in the i-th temporary PDF path; htmlTemp
gives the NamedTemporaryFile path used for the i-th generated HTML file. -/
structure Env (F R : Type) where
  listing : Except String (List String)
  upload : String → String → String → Except String F
  gen : GenCall F → GenResult R
  text : R → String
  uri : F → String
  uuid : Nat → String
  htmlTemp : Nat → String

/-- The ConsolidatedResponse model of the /convert/ endpoint. -/
structure ConsolidatedResponse where
  message : String
  filenames : List String
  html : Option (List String)
  file_uris : Option (List String)
deriving DecidableEq, Repr

/-- The work handed to background_tasks.add_task in background mode: the
arguments of process_pdf_from_paths (the api_key is carried by the
environment and store_files is always true at this call site). -/
structure BgTask where
  temp_file_paths : List String
  filenames : List String
  prompt : String
deriving DecidableEq, Repr

/-- The outcome of one /convert/ request: the events performed while
handling the request, the HTTP result, and the background task scheduled to
run after the response is sent (none in synchronous mode). -/
structure ConvertOut (F : Type) where
  events : List (Ev F)
  result : Except PyError ConsolidatedResponse
  task : Option BgTask
deriving Repr

/-- The default conversion prompt of src/main.py, used when the caller's
prompt is empty. -/
def default_prompt : String :=
  "Convert this PDF document to well-formatted HTML. Preserve headers, lists, tables, and other formatting. Ignore page numbers, footers, and all images. Do not convert or include images in the HTML output - omit all img tags and image references. Ensure tables are properly structured with <table>, <tr>, <th>, and <td> tags."

/-- The background-mode acknowledgment message of src/main.py. -/
def background_message : String :=
  "Files submitted for background processing. HTML files will be available in the File API once processing is complete. Use /list_files/ to view all stored files."

/-- The synchronous-mode success message of src/main.py. -/
def sync_message : String :=
  "Files processed successfully. HTML files are available in the File API."

/-- The detail of the duplicate-name HTTPException of src/main.py. -/
def duplicate_detail (shortened_filename : String) : String :=
  "A file with name \x27" ++ shortened_filename ++ "\x27 already exists in the File API. Please use a different filename."

/-- file_exists_in_api from src/main.py: list the File API files and report
whether any has the given display name; on any listing error report False. -/
def file_exists_in_api (listing : Except String (List String))
    (display_name : String) : Bool :=
  match listing with
  | .ok files_list => files_list.any (fun f => f = display_name)
  | .error _ => false

/-- The pre-flight loop of convert_files (src/main.py lines 289-316): for
each uploaded file, shorten its name, check the shortened name against the
File API listing, and save the bytes to a fresh temporary path.  The
HTTPException 400 raised on a collision is caught by the loop's own general
exception handler, which removes the temporary files saved so far and
re-raises it wrapped in an HTTPException 500.  Arguments after uuid are the
loop counter and the filenames and temp_file_paths accumulators. -/
def convert_preflight (F : Type) (listing : Except String (List String))
    (uuid : Nat → String) :
    Nat → List String → List String → List String →
      List (Ev F) × Except PyError (List String × List String)
  | _, filenames, temp_file_paths, [] => ([], .ok (filenames, temp_file_paths))
  | i, filenames, temp_file_paths, original_filename :: rest =>
    let shortened_filename := shorten_filename original_filename 40
    if file_exists_in_api listing shortened_filename then
      (Ev.listFiles :: temp_file_paths.map Ev.tempRemove,
       .error (.http 500 ("Error processing " ++ original_filename ++ ": " ++
         str_of_err (.http 400 (duplicate_detail shortened_filename)))))
    else
      let temp_file_path := "temp_" ++ uuid i ++ "_" ++ shortened_filename
      (Ev.listFiles :: Ev.tempWrite temp_file_path ::
        (convert_preflight F listing uuid (i + 1) (filenames ++ [shortened_filename])
          (temp_file_paths ++ [temp_file_path]) rest).1,
       (convert_preflight F listing uuid (i + 1) (filenames ++ [shortened_filename])
          (temp_file_paths ++ [temp_file_path]) rest).2)

/-- The temporary paths the pre-flight loop creates for a list of filenames,
starting at loop counter i. -/
def expected_temp_paths (uuid : Nat → String) : Nat → List String → List String
  | _, [] => []
  | i, original_filename :: rest =>
    ("temp_" ++ uuid i ++ "_" ++ shorten_filename original_filename 40) ::
      expected_temp_paths uuid (i + 1) rest

/-- The effective prompt of src/main.py lines 357 and 440: the caller's
prompt when non-empty (Python truthiness of strings), else the default
conversion prompt. -/
def effective_prompt (prompt : String) : String :=
  if prompt = "" then default_prompt else prompt

/-- The per-document processing block shared by the synchronous loop
(src/main.py lines 345-393) and the background loop (lines 428-469): upload
the saved PDF under its shortened display name, generate HTML through
generate_with_retry, write the HTML to a temporary file, upload it, and
remove the HTML temporary file; the finally clause removes the PDF temporary
file on every path.  Errors are returned raw; each caller applies its own
handler.  On success returns the response text and the uploaded HTML URI. -/
def process_document (env : Env F R) (i : Nat)
    (temp_file_path shortened_filename prompt : String) :
    List (Ev F) × Except PyError (String × String) :=
  match env.upload temp_file_path shortened_filename "application/pdf" with
  | .error e =>
    ([.upload temp_file_path shortened_filename "application/pdf",
      .tempRemove temp_file_path], .error (.exn e))
  | .ok sample_file =>
    let gr := generate_with_retry env.gen sample_file (effective_prompt prompt) 3
    let evs0 : List (Ev F) :=
      Ev.upload temp_file_path shortened_filename "application/pdf" ::
        gr.2.map Ev.gen
    match gr.1 with
    | .error e => (evs0 ++ [.tempRemove temp_file_path], .error e)
    | .ok response =>
      let html_content := env.text response
      let html_filename := (splitext shortened_filename).1 ++ ".html"
      let html_temp_path := env.htmlTemp i
      match env.upload html_temp_path html_filename "text/html" with
      | .error e =>
        (evs0 ++ [.tempWrite html_temp_path,
          .upload html_temp_path html_filename "text/html",
          .tempRemove temp_file_path], .error (.exn e))
      | .ok html_file =>
        (evs0 ++ [.tempWrite html_temp_path,
          .upload html_temp_path html_filename "text/html",
          .tempRemove html_temp_path, .tempRemove temp_file_path],
         .ok (html_content, env.uri html_file))

/-- The synchronous loop's exception handling: an HTTPException is re-raised
unchanged, any other exception is wrapped in an HTTPException 500 naming the
shortened filename. -/
def wrap_sync (shortened_filename : String) : PyError → PyError
  | .http c d => .http c d
  | .exn m => .http 500 ("Error processing " ++ shortened_filename ++ ": " ++ m)

/-- The synchronous processing loop of convert_files: process the documents
(pairs of temporary path and shortened filename) in order, collecting the
HTML contents (when return_html) and the uploaded HTML URIs; the first
failure aborts the loop with its wrapped error. -/
def process_docs_sync (env : Env F R) (return_html : Bool) (prompt : String) :
    Nat → List (String × String) →
      List (Ev F) × Except PyError (List String × List String)
  | _, [] => ([], .ok ([], []))
  | i, (temp_file_path, shortened_filename) :: rest =>
    let d := process_document env i temp_file_path shortened_filename prompt
    match d.2 with
    | .error e => (d.1, .error (wrap_sync shortened_filename e))
    | .ok (html_content, uri) =>
      let r := process_docs_sync env return_html prompt (i + 1) rest
      match r.2 with
      | .error e2 => (d.1 ++ r.1, .error e2)
      | .ok (html_results, file_uris) =>
        (d.1 ++ r.1,
         .ok ((if return_html then html_content :: html_results else html_results),
           uri :: file_uris))

/-- The loop of process_pdf_from_paths: process each document; a failure is
only logged (second component) and the loop continues with the next
document. -/
def process_bg_loop (env : Env F R) (prompt : String) :
    Nat → List (String × String) → List (Ev F) × List String
  | _, [] => ([], [])
  | i, (temp_file_path, shortened_filename) :: rest =>
    let d := process_document env i temp_file_path shortened_filename prompt
    let r := process_bg_loop env prompt (i + 1) rest
    match d.2 with
    | .ok _ => (d.1 ++ r.1, r.2)
    | .error e =>
      (d.1 ++ r.1,
       ("Error processing file " ++ shortened_filename ++ ": " ++ str_of_err e) :: r.2)

/-- process_pdf_from_paths from src/main.py: the background task.  Processes
every saved document in submission order; per-document failures are printed
(returned here as the log list) and never raised. -/
def process_pdf_from_paths (env : Env F R) (temp_file_paths filenames : List String)
    (prompt : String) : List (Ev F) × List String :=
  process_bg_loop env prompt 0 (temp_file_paths.zip filenames)

/-- convert_files from src/main.py: the /convert/ endpoint.  Rejects an
empty upload list, runs the pre-flight loop, then either schedules the
background task and acknowledges with the accepted filenames, or processes
the documents synchronously and answers with contents and URIs. -/
def convert_files (env : Env F R) (files : List String) (prompt : String)
    (background return_html : Bool) : ConvertOut F :=
  if files = [] then ⟨[], .error (.http 400 "No files uploaded."), none⟩
  else
    let pre := convert_preflight F env.listing env.uuid 0 [] [] files
    match pre.2 with
    | .error e => ⟨pre.1, .error e, none⟩
    | .ok (filenames, temp_file_paths) =>
      if background then
        ⟨pre.1,
         .ok ⟨background_message, filenames, none, none⟩,
         some ⟨temp_file_paths, filenames, prompt⟩⟩
      else
        let r := process_docs_sync env return_html prompt 0
          (temp_file_paths.zip filenames)
        match r.2 with
        | .error e2 => ⟨pre.1 ++ r.1, .error e2, none⟩
        | .ok (html_results, file_uris) =>
          ⟨pre.1 ++ r.1,
           .ok ⟨sync_message, filenames,
             (if return_html then some html_results else none), some file_uris⟩,
           none⟩

/-- A File API environment with no stored files in which every upload and
every generation call succeeds. -/
def env_no_collision : Env Unit Unit :=
  ⟨.ok [], fun _ _ _ => .ok (), fun _ => .ok (), fun _ => "generated html",
   fun _ => "uri-0", fun _ => "u", fun i => "htmltmp" ++ Nat.repr i⟩

/-- A File API environment already holding a file with display name b.pdf. -/
def env_existing_b : Env Unit Unit :=
  ⟨.ok ["b.pdf"], fun _ _ _ => .ok (), fun _ => .ok (), fun _ => "generated html",
   fun _ => "uri-0", fun _ => "u", fun i => "htmltmp" ++ Nat.repr i⟩

/-- An environment in which uploading the generated HTML back to the File
API fails while everything else succeeds. -/
def env_html_upload_fails : Env Unit Unit :=
  ⟨.ok [],
   fun _ _ mime_type => if mime_type = "text/html" then .error "upload failed" else .ok (),
   fun _ => .ok (), fun _ => "generated html", fun _ => "uri-0", fun _ => "u",
   fun i => "htmltmp" ++ Nat.repr i⟩

/-! ## Helper lemmas -/

/-- Inversion for a successful jwt_decode: the token was well formed, signed
with the expected key, its algorithm was allowed, it was not expired, and the
returned payload is its claim set. -/
theorem jwt_decode_ok_inv {now : Int} {claims : Claims} {k alg key : String}
    {algs : List String} {p : Claims}
    (h : jwt_decode now (.jwt claims k alg) key algs = .ok p) :
    p = claims ∧ k = key ∧ alg ∈ algs ∧ ∀ e, claims.exp = some e → ¬ e < now := by
  simp only [jwt_decode] at h
  split at h
  next hc =>
    split at h
    next e hexp =>
      split at h
      next hlt => cases h
      next hlt =>
        injection h with h'
        refine ⟨h'.symm, hc.1, hc.2, ?_⟩
        intro e' he'
        rw [hexp] at he'
        cases he'
        exact hlt
    next hexp =>
      injection h with h'
      refine ⟨h'.symm, hc.1, hc.2, ?_⟩
      intro e' he'
      rw [hexp] at he'
      cases he'
  next hc => cases h

/-- A failing generation outcome is an err with some message. -/
theorem GenResult.exists_err_of_isErr {R : Type} {g : GenResult R}
    (h : g.isErr = true) : ∃ m, g = .err m := by
  cases g with
  | ok r => simp [GenResult.isErr] at h
  | err m => exact ⟨m, rfl⟩

/-- Attempt 0 escalates to temperature 0.4. -/
theorem retry_temperature_0 : retry_temperature 0 = 0.4 := by
  norm_num [retry_temperature]

/-- Attempt 1 escalates to temperature 0.6. -/
theorem retry_temperature_1 : retry_temperature 1 = 0.6 := by
  norm_num [retry_temperature]

/-- Attempt 2 escalates to temperature 0.8. -/
theorem retry_temperature_2 : retry_temperature 2 = 0.8 := by
  norm_num [retry_temperature]

/-- Attempt 0 uses the first alternative prompt. -/
theorem retry_prompt_0 : retry_prompt 0 = alternative_prompt_1 := rfl

/-- Attempt 1 uses the second alternative prompt. -/
theorem retry_prompt_1 : retry_prompt 1 = alternative_prompt_2 := rfl

/-- Attempt 2 uses the third alternative prompt. -/
theorem retry_prompt_2 : retry_prompt 2 = alternative_prompt_3 := rfl

/-- The last element of a list is a member of it. -/
theorem mem_of_getLast?_eq {α : Type} {l : List α} {a : α}
    (h : l.getLast? = some a) : a ∈ l := by
  have hmem : a ∈ l.getLast? := Option.mem_def.mpr h
  obtain ⟨hne, heq⟩ := List.mem_getLast?_eq_getLast hmem
  rw [heq]
  exact List.getLast_mem hne

/-- Every event of the pre-flight loop is a listing call or a temporary-file
operation: the loop performs no upload and no generation call. -/
theorem convert_preflight_events_safe (F : Type)
    (listing : Except String (List String)) (uuid : Nat → String) :
    ∀ (files : List String) (i : Nat) (fns paths : List String),
      ∀ ev ∈ (convert_preflight F listing uuid i fns paths files).1,
        ev.isUpload = false ∧ ev.isGen = false := by
  intro files
  induction files with
  | nil =>
    intro i fns paths ev hev
    simp [convert_preflight] at hev
  | cons nm rest ih =>
    intro i fns paths ev hev
    simp only [convert_preflight] at hev
    cases hex : file_exists_in_api listing (shorten_filename nm 40) with
    | true =>
      rw [hex] at hev
      simp only [if_true] at hev
      rcases List.mem_cons.mp hev with rfl | hmap
      · exact ⟨rfl, rfl⟩
      · obtain ⟨p, _, rfl⟩ := List.mem_map.mp hmap
        exact ⟨rfl, rfl⟩
    | false =>
      rw [hex] at hev
      simp only [Bool.false_eq_true, if_false] at hev
      rcases List.mem_cons.mp hev with rfl | hev'
      · exact ⟨rfl, rfl⟩
      · rcases List.mem_cons.mp hev' with rfl | hev''
        · exact ⟨rfl, rfl⟩
        · exact ih _ _ _ ev hev''

/-- When no submitted name collides with the File API listing, the pre-flight
loop succeeds with the shortened filenames and the generated temporary
paths appended to the accumulators. -/
theorem convert_preflight_ok (F : Type) (listing : Except String (List String))
    (uuid : Nat → String) :
    ∀ (files : List String) (i : Nat) (fns paths : List String),
      (∀ nm ∈ files, file_exists_in_api listing (shorten_filename nm 40) = false) →
      (convert_preflight F listing uuid i fns paths files).2 =
        .ok (fns ++ files.map (fun nm => shorten_filename nm 40),
             paths ++ expected_temp_paths uuid i files) := by
  intro files
  induction files with
  | nil =>
    intro i fns paths _
    simp [convert_preflight, expected_temp_paths]
  | cons nm rest ih =>
    intro i fns paths h
    have hnm := h nm (List.mem_cons_self nm rest)
    simp only [convert_preflight, hnm, Bool.false_eq_true, if_false]
    rw [ih (i + 1) _ _ (fun x hx => h x (List.mem_cons_of_mem _ hx))]
    simp [expected_temp_paths]

/-- A pre-flight collision at the first submitted name whose shortened form
is present in the File API listing aborts the loop: the duplicate-name 400 is
wrapped by the loop's general handler into a 500 naming the original
filename. -/
theorem convert_preflight_collision (F : Type) (listing : Except String (List String))
    (uuid : Nat → String) (nm : String) (post : List String) :
    ∀ (pre : List String) (i : Nat) (fns paths : List String),
      (∀ g ∈ pre, file_exists_in_api listing (shorten_filename g 40) = false) →
      file_exists_in_api listing (shorten_filename nm 40) = true →
      (convert_preflight F listing uuid i fns paths (pre ++ nm :: post)).2 =
        .error (.http 500 ("Error processing " ++ nm ++ ": " ++
          str_of_err (.http 400 (duplicate_detail (shorten_filename nm 40))))) := by
  intro pre
  induction pre with
  | nil =>
    intro i fns paths _ hnm
    simp [convert_preflight, hnm]
  | cons g rest ih =>
    intro i fns paths hpre hnm
    have hg := hpre g (List.mem_cons_self g rest)
    simp only [List.cons_append, convert_preflight, hg, Bool.false_eq_true, if_false]
    exact ih _ _ _ (fun x hx => hpre x (List.mem_cons_of_mem _ hx)) hnm

/-- Inversion of a successful pre-flight: the returned filename list is the
accumulator followed by the shortened submitted names. -/
theorem convert_preflight_filenames (F : Type) (listing : Except String (List String))
    (uuid : Nat → String) :
    ∀ (files : List String) (i : Nat) (fns paths fns' paths' : List String),
      (convert_preflight F listing uuid i fns paths files).2 = .ok (fns', paths') →
      fns' = fns ++ files.map (fun nm => shorten_filename nm 40) := by
  intro files
  induction files with
  | nil =>
    intro i fns paths fns' paths' h
    simp only [convert_preflight] at h
    injection h with h'
    injection h' with h1 h2
    simp [h1.symm]
  | cons nm rest ih =>
    intro i fns paths fns' paths' h
    simp only [convert_preflight] at h
    cases hex : file_exists_in_api listing (shorten_filename nm 40) with
    | true =>
      rw [hex] at h
      simp only [if_true] at h
      cases h
    | false =>
      rw [hex] at h
      simp only [Bool.false_eq_true, if_false] at h
      have := ih _ _ _ _ _ h
      simp only [this, List.map_cons]
      simp

/-- Every exit path of the per-document processing block ends with the
removal of the saved PDF temporary file. -/
theorem process_document_ends_with_remove (env : Env F R) (i : Nat)
    (temp_file_path shortened_filename prompt : String) :
    ((process_document env i temp_file_path shortened_filename prompt).1).getLast? =
      some (.tempRemove temp_file_path) := by
  simp only [process_document]
  split
  · rfl
  · split
    · rw [List.getLast?_append_of_ne_nil _ (by simp)]
      rfl
    · split
      · rw [List.getLast?_append_of_ne_nil _ (by simp)]
        rfl
      · rw [List.getLast?_append_of_ne_nil _ (by simp)]
        rfl

/-- A successful per-document run removes the generated-HTML temporary
file. -/
theorem process_document_ok_removes_html (env : Env F R) (i : Nat)
    (temp_file_path shortened_filename prompt : String) (v : String × String)
    (h : (process_document env i temp_file_path shortened_filename prompt).2 = .ok v) :
    Ev.tempRemove (env.htmlTemp i) ∈
      (process_document env i temp_file_path shortened_filename prompt).1 := by
  simp only [process_document] at h ⊢
  split at h
  · cases h
  · split at h
    · cases h
    · split at h
      · cases h
      · simp

/-- The only File API upload of a document with the PDF MIME type carries
the document's shortened display name. -/
theorem process_document_pdf_upload_name (env : Env F R) (i : Nat)
    (temp_file_path shortened_filename prompt p dn : String)
    (h : Ev.upload p dn "application/pdf" ∈
      (process_document env i temp_file_path shortened_filename prompt).1) :
    dn = shortened_filename := by
  simp only [process_document] at h
  split at h
  · simp at h
    exact h.2
  · split at h
    · simp at h
      exact h.2
    · split at h
      · simp at h
        exact h.2
      · simp at h
        exact h.2

/-- The trace of the synchronous loop on a non-empty document list starts
with the complete trace of its first document: in particular the first
document's temporary files are handled before any event of a later
document. -/
theorem process_docs_sync_head_trace (env : Env F R) (return_html : Bool)
    (prompt : String) (i : Nat) (path nm : String)
    (rest : List (String × String)) :
    ∃ t, (process_docs_sync env return_html prompt i ((path, nm) :: rest)).1 =
      (process_document env i path nm prompt).1 ++ t := by
  rcases hd : (process_document env i path nm prompt).2 with e | v
  · refine ⟨[], ?_⟩
    simp [process_docs_sync, hd]
  · obtain ⟨hc, u⟩ := v
    rcases hr : (process_docs_sync env return_html prompt (i + 1) rest).2 with e2 | v2
    · refine ⟨(process_docs_sync env return_html prompt (i + 1) rest).1, ?_⟩
      simp [process_docs_sync, hd, hr]
    · obtain ⟨hs, us⟩ := v2
      refine ⟨(process_docs_sync env return_html prompt (i + 1) rest).1, ?_⟩
      simp [process_docs_sync, hd, hr]

/-- Every PDF-MIME upload of the synchronous loop carries the shortened
display name of one of the processed documents. -/
theorem process_docs_sync_pdf_upload_name (env : Env F R) (return_html : Bool)
    (prompt : String) :
    ∀ (docs : List (String × String)) (i : Nat) (p dn : String),
      Ev.upload p dn "application/pdf" ∈
        (process_docs_sync env return_html prompt i docs).1 →
      ∃ pr ∈ docs, dn = pr.2 := by
  intro docs
  induction docs with
  | nil =>
    intro i p dn h
    simp [process_docs_sync] at h
  | cons d rest ih =>
    intro i p dn h
    obtain ⟨path, nm⟩ := d
    rcases hd : (process_document env i path nm prompt).2 with e | v
    · simp only [process_docs_sync, hd] at h
      exact ⟨(path, nm), List.mem_cons_self _ _,
        process_document_pdf_upload_name env i path nm prompt p dn h⟩
    · obtain ⟨hc, u⟩ := v
      rcases hr : (process_docs_sync env return_html prompt (i + 1) rest).2 with e2 | v2
      · simp only [process_docs_sync, hd, hr] at h
        rcases List.mem_append.mp h with h1 | h2
        · exact ⟨(path, nm), List.mem_cons_self _ _,
            process_document_pdf_upload_name env i path nm prompt p dn h1⟩
        · obtain ⟨pr, hpr, hdn⟩ := ih (i + 1) p dn h2
          exact ⟨pr, List.mem_cons_of_mem _ hpr, hdn⟩
      · obtain ⟨hs, us⟩ := v2
        simp only [process_docs_sync, hd, hr] at h
        rcases List.mem_append.mp h with h1 | h2
        · exact ⟨(path, nm), List.mem_cons_self _ _,
            process_document_pdf_upload_name env i path nm prompt p dn h1⟩
        · obtain ⟨pr, hpr, hdn⟩ := ih (i + 1) p dn h2
          exact ⟨pr, List.mem_cons_of_mem _ hpr, hdn⟩

/-- The background loop processes every document: whatever the outcomes, the
trace removes the temporary PDF file of each submitted document. -/
theorem process_bg_loop_covers (env : Env F R) (prompt : String) :
    ∀ (docs : List (String × String)) (i : Nat) (pd : String × String),
      pd ∈ docs → Ev.tempRemove pd.1 ∈ (process_bg_loop env prompt i docs).1 := by
  intro docs
  induction docs with
  | nil =>
    intro i pd h
    cases h
  | cons d rest ih =>
    intro i pd h
    obtain ⟨path, nm⟩ := d
    have hmem : Ev.tempRemove pd.1 ∈ (process_document env i path nm prompt).1 ∨
        Ev.tempRemove pd.1 ∈ (process_bg_loop env prompt (i + 1) rest).1 := by
      rcases List.mem_cons.mp h with rfl | hmem
      · exact Or.inl (mem_of_getLast?_eq
          (process_document_ends_with_remove env i path nm prompt))
      · exact Or.inr (ih (i + 1) pd hmem)
    rcases hd : (process_document env i path nm prompt).2 with e | v
    · simp only [process_bg_loop, hd]
      exact List.mem_append.mpr hmem
    · simp only [process_bg_loop, hd]
      exact List.mem_append.mpr hmem

/-- The trace of the background loop on a non-empty document list starts
with the complete trace of its first document. -/
theorem process_bg_loop_head_trace (env : Env F R) (prompt : String) (i : Nat)
    (path nm : String) (rest : List (String × String)) :
    ∃ t, (process_bg_loop env prompt i ((path, nm) :: rest)).1 =
      (process_document env i path nm prompt).1 ++ t := by
  rcases hd : (process_document env i path nm prompt).2 with e | v
  · exact ⟨(process_bg_loop env prompt (i + 1) rest).1, by simp [process_bg_loop, hd]⟩
  · exact ⟨(process_bg_loop env prompt (i + 1) rest).1, by simp [process_bg_loop, hd]⟩

/-- When a /convert/ request answers successfully, its response lists the
shortened filenames of the submitted documents, in order. -/
theorem convert_files_ok_filenames (env : Env F R) (files : List String)
    (prompt : String) (background return_html : Bool) (resp : ConsolidatedResponse)
    (h : (convert_files env files prompt background return_html).result = .ok resp) :
    resp.filenames = files.map (fun nm => shorten_filename nm 40) := by
  by_cases hne : files = []
  · subst hne
    simp [convert_files] at h
  · simp only [convert_files, if_neg hne] at h
    rcases hp : (convert_preflight F env.listing env.uuid 0 [] [] files).2
      with e | ⟨fns, paths⟩
    · rw [hp] at h
      cases h
    · rw [hp] at h
      have hf := convert_preflight_filenames F env.listing env.uuid files 0 [] []
        fns paths hp
      rw [List.nil_append] at hf
      cases background with
      | true =>
        simp only [if_true] at h
        injection h with h'
        rw [← h', hf]
      | false =>
        simp only [Bool.false_eq_true, if_false] at h
        rcases hs : (process_docs_sync env return_html prompt 0 (paths.zip fns)).2
          with e2 | ⟨hr, fu⟩
        · rw [hs] at h
          cases h
        · rw [hs] at h
          injection h with h'
          rw [← h', hf]

/-- Every PDF-MIME upload performed while handling a /convert/ request
carries one of the shortened display names of the submitted documents. -/
theorem convert_files_pdf_upload_names (env : Env F R) (files : List String)
    (prompt : String) (background return_html : Bool) (p dn : String)
    (h : Ev.upload p dn "application/pdf" ∈
      (convert_files env files prompt background return_html).events) :
    dn ∈ files.map (fun nm => shorten_filename nm 40) := by
  by_cases hne : files = []
  · subst hne
    simp [convert_files] at h
  · simp only [convert_files, if_neg hne] at h
    rcases hp : (convert_preflight F env.listing env.uuid 0 [] [] files).2
      with e | ⟨fns, paths⟩
    · rw [hp] at h
      have := (convert_preflight_events_safe F env.listing env.uuid files 0 [] [] _ h).1
      simp [Ev.isUpload] at this
    · rw [hp] at h
      have hf := convert_preflight_filenames F env.listing env.uuid files 0 [] []
        fns paths hp
      rw [List.nil_append] at hf
      cases background with
      | true =>
        simp only [if_true] at h
        have := (convert_preflight_events_safe F env.listing env.uuid files 0 [] [] _ h).1
        simp [Ev.isUpload] at this
      | false =>
        simp only [Bool.false_eq_true, if_false] at h
        have hmem : Ev.upload p dn "application/pdf" ∈
            (convert_preflight F env.listing env.uuid 0 [] [] files).1 ++
              (process_docs_sync env return_html prompt 0 (paths.zip fns)).1 := by
          rcases hs : (process_docs_sync env return_html prompt 0 (paths.zip fns)).2
            with e2 | ⟨hr, fu⟩
          · rw [hs] at h
            exact h
          · rw [hs] at h
            exact h
        rcases List.mem_append.mp hmem with h1 | h2
        · have := (convert_preflight_events_safe F env.listing env.uuid files 0 [] [] _ h1).1
          simp [Ev.isUpload] at this
        · obtain ⟨pr, hpr, rfl⟩ :=
            process_docs_sync_pdf_upload_name env return_html prompt
              (paths.zip fns) 0 p dn h2
          have hmem2 : pr.2 ∈ fns := by
            obtain ⟨a, b⟩ := pr
            exact (List.of_mem_zip hpr).2
          rw [hf] at hmem2
          exact hmem2

/-- Length of the string of a taken character-list prefix. -/
theorem length_asString_take (l : List Char) (n : Nat) :
    (List.asString (List.take n l)).length = min n l.length :=
  List.length_take n l

/-! ## Claims -/

/-- Claim C5: for every provider credential string, issuing a token with
subject equal to that credential, exactly as the /token endpoint does it (a
30-minute expires_delta), and then immediately verifying that token with
get_current_api_key yields back the same credential string. -/
theorem token_roundtrip (api_key : String) (now : Int) :
    get_access_token (Except.ok ()) now api_key =
      .ok ⟨create_access_token now ⟨some api_key, none⟩
            (some (60 * (ACCESS_TOKEN_EXPIRE_MINUTES : Int))), "bearer"⟩ ∧
    get_current_api_key now
      (create_access_token now ⟨some api_key, none⟩
        (some (60 * (ACCESS_TOKEN_EXPIRE_MINUTES : Int)))) = .ok api_key := by
  constructor
  · rfl
  · have hne : ¬ now + 60 * (ACCESS_TOKEN_EXPIRE_MINUTES : Int) < now := by
      unfold ACCESS_TOKEN_EXPIRE_MINUTES
      omega
    simp [get_current_api_key, create_access_token, jwt_decode, hne]

/-- Claim C6: every invalid token — structurally malformed, signed with a
different secret, carrying a disallowed signing algorithm, expired at
verification time, or missing the subject claim — makes get_current_api_key
fail with the one uniform 401 error, whose message never depends on the
failure cause. -/
theorem verifier_uniform_failure (now : Int) (token : TokenRep)
    (h : (∃ raw, token = .malformed raw) ∨
         ∃ claims k alg, token = .jwt claims k alg ∧
           (k ≠ SECRET_KEY ∨ alg ≠ ALGORITHM ∨
            (∃ e, claims.exp = some e ∧ e < now) ∨ claims.sub = none)) :
    get_current_api_key now token =
      .error (.http 401 "Could not validate credentials") := by
  rcases h with ⟨raw, rfl⟩ | ⟨claims, k, alg, rfl, hbad⟩
  · rfl
  · show (match jwt_decode now (.jwt claims k alg) SECRET_KEY [ALGORITHM] with
      | .error _ => Except.error credentials_exception
      | .ok payload =>
        match payload.sub with
        | none => Except.error credentials_exception
        | some api_key => Except.ok api_key) =
      .error (.http 401 "Could not validate credentials")
    rcases hdec : jwt_decode now (.jwt claims k alg) SECRET_KEY [ALGORITHM]
      with _ | payload
    · rfl
    · obtain ⟨hp, hk, halg, hexp⟩ := jwt_decode_ok_inv hdec
      rcases hbad with hk' | halg' | ⟨e, he, hlt⟩ | hsub
      · exact absurd hk hk'
      · exact absurd (List.mem_singleton.mp halg) halg'
      · exact absurd hlt (hexp e he)
      · subst hp
        simp [hsub, credentials_exception]

/-- Claim C6 witness: a token expired at verification time fails with the
uniform credentials error. -/
theorem verifier_uniform_failure_witness :
    get_current_api_key 10 (.jwt ⟨some "key-1", some 0⟩ SECRET_KEY "HS256") =
      .error (.http 401 "Could not validate credentials") :=
  verifier_uniform_failure 10 (.jwt ⟨some "key-1", some 0⟩ SECRET_KEY "HS256")
    (Or.inr ⟨⟨some "key-1", some 0⟩, SECRET_KEY, "HS256", rfl,
      Or.inr (Or.inr (Or.inl ⟨0, rfl, by decide⟩))⟩)

/-- Claim C7: on a successful credential probe the /token endpoint mints a
bearer token whose subject is the supplied credential, whose expiry is
exactly 30 minutes (1800 seconds) after issuance time, signed with the fixed
server secret under the HS256 symmetric algorithm, returned together with the
fixed token-type label. -/
theorem issuer_mints_bearer_token (probe : Except String Unit) (now : Int)
    (api_key : String) (hp : probe = .ok ()) :
    get_access_token probe now api_key =
      .ok ⟨.jwt ⟨some api_key, some (now + 30 * 60)⟩ SECRET_KEY "HS256", "bearer"⟩ := by
  subst hp
  simp only [get_access_token, create_access_token, ACCESS_TOKEN_EXPIRE_MINUTES, ALGORITHM]
  norm_num

/-- Claim C7 witness: the endpoint at issuance time 0 with a successful
probe mints the expected token. -/
theorem issuer_mints_bearer_token_witness :
    get_access_token (.ok ()) 0 "key-2" =
      .ok ⟨.jwt ⟨some "key-2", some 1800⟩ SECRET_KEY "HS256", "bearer"⟩ :=
  issuer_mints_bearer_token (.ok ()) 0 "key-2" rfl

/-- Claim C1: when the original generation call fails with a
content-recitation refusal and all 3 escalation attempts fail as well,
generate_with_retry fails with the terminal 422 ContentFlagged error whose
detail carries the original upstream error text, after exactly 4 generation
calls in total (the original plus the three escalations at temperatures 0.4,
0.6, 0.8) and never a 5th. -/
theorem generate_with_retry_exhausted {F R : Type} (gen : GenCall F → GenResult R)
    (content : F) (prompt e : String)
    (h0 : gen ⟨content, prompt, none⟩ = .err e)
    (hrec : isRecitationError e = true)
    (h1 : (gen ⟨content, alternative_prompt_1, some 0.4⟩).isErr = true)
    (h2 : (gen ⟨content, alternative_prompt_2, some 0.6⟩).isErr = true)
    (h3 : (gen ⟨content, alternative_prompt_3, some 0.8⟩).isErr = true) :
    generate_with_retry gen content prompt 3 =
      (.error (.http 422 (content_flagged_detail e)),
       [⟨content, prompt, none⟩,
        ⟨content, alternative_prompt_1, some 0.4⟩,
        ⟨content, alternative_prompt_2, some 0.6⟩,
        ⟨content, alternative_prompt_3, some 0.8⟩]) := by
  obtain ⟨m1, hg1⟩ := GenResult.exists_err_of_isErr h1
  obtain ⟨m2, hg2⟩ := GenResult.exists_err_of_isErr h2
  obtain ⟨m3, hg3⟩ := GenResult.exists_err_of_isErr h3
  have hr : List.range 3 = [0, 1, 2] := rfl
  simp [generate_with_retry, retry_loop, h0, hrec, hr,
    retry_temperature_0, retry_temperature_1, retry_temperature_2,
    retry_prompt_0, retry_prompt_1, retry_prompt_2, hg1, hg2, hg3]

/-- Claim C1 witness: an oracle refusing every call with a RECITATION error
makes generate_with_retry raise the terminal 422 after exactly the four
recorded calls. -/
theorem generate_with_retry_exhausted_witness :
    generate_with_retry (fun _ : GenCall Unit => (GenResult.err "RECITATION" : GenResult Unit))
        () "convert" 3 =
      (.error (.http 422 (content_flagged_detail "RECITATION")),
       [⟨(), "convert", none⟩,
        ⟨(), alternative_prompt_1, some 0.4⟩,
        ⟨(), alternative_prompt_2, some 0.6⟩,
        ⟨(), alternative_prompt_3, some 0.8⟩]) :=
  generate_with_retry_exhausted
    (fun _ => GenResult.err "RECITATION") () "convert" "RECITATION"
    rfl (by decide) rfl rfl rfl

/-- Claim C2: when the original call fails with a recitation refusal and
escalation attempts 1 and 2 fail but attempt 3 succeeds, generate_with_retry
returns the attempt-3 result; that successful call carries temperature 0.8
and the attempt-3 rephrase-and-restructure instruction, and exactly 4
generation calls are made in total. -/
theorem generate_with_retry_third_attempt {F R : Type} (gen : GenCall F → GenResult R)
    (content : F) (prompt e : String) (response : R)
    (h0 : gen ⟨content, prompt, none⟩ = .err e)
    (hrec : isRecitationError e = true)
    (h1 : (gen ⟨content, alternative_prompt_1, some 0.4⟩).isErr = true)
    (h2 : (gen ⟨content, alternative_prompt_2, some 0.6⟩).isErr = true)
    (h3 : gen ⟨content, alternative_prompt_3, some 0.8⟩ = .ok response) :
    generate_with_retry gen content prompt 3 =
      (.ok response,
       [⟨content, prompt, none⟩,
        ⟨content, alternative_prompt_1, some 0.4⟩,
        ⟨content, alternative_prompt_2, some 0.6⟩,
        ⟨content, alternative_prompt_3, some 0.8⟩]) := by
  obtain ⟨m1, hg1⟩ := GenResult.exists_err_of_isErr h1
  obtain ⟨m2, hg2⟩ := GenResult.exists_err_of_isErr h2
  have hr : List.range 3 = [0, 1, 2] := rfl
  simp [generate_with_retry, retry_loop, h0, hrec, hr,
    retry_temperature_0, retry_temperature_1, retry_temperature_2,
    retry_prompt_0, retry_prompt_1, retry_prompt_2, hg1, hg2, h3]

set_option maxRecDepth 4096 in
/-- Claim C2 witness: an oracle refusing everything except the attempt-3
instruction yields the attempt-3 success after the four recorded calls. -/
theorem generate_with_retry_third_attempt_witness :
    generate_with_retry
        (fun c : GenCall Unit =>
          if c.prompt = alternative_prompt_3 then (GenResult.ok () : GenResult Unit)
          else .err "RECITATION")
        () "convert" 3 =
      (.ok (),
       [⟨(), "convert", none⟩,
        ⟨(), alternative_prompt_1, some 0.4⟩,
        ⟨(), alternative_prompt_2, some 0.6⟩,
        ⟨(), alternative_prompt_3, some 0.8⟩]) :=
  generate_with_retry_third_attempt
    (fun c => if c.prompt = alternative_prompt_3 then .ok () else .err "RECITATION")
    () "convert" "RECITATION" ()
    (by decide) (by decide) (by decide) (by decide) (by decide)

/-- Claim C3: when the first generation call fails with an error unrelated
to content recitation, generate_with_retry propagates that failure as-is
with no escalation attempt: exactly one generation call is made. -/
theorem generate_with_retry_no_retry {F R : Type} (gen : GenCall F → GenResult R)
    (content : F) (prompt e : String)
    (h0 : gen ⟨content, prompt, none⟩ = .err e)
    (hrec : isRecitationError e = false) :
    generate_with_retry gen content prompt 3 =
      (.error (.exn e), [⟨content, prompt, none⟩]) := by
  simp [generate_with_retry, h0, hrec]

/-- Claim C3 witness: a quota-style upstream failure is propagated as-is
after a single call. -/
theorem generate_with_retry_no_retry_witness :
    generate_with_retry (fun _ : GenCall Unit => (GenResult.err "quota exceeded" : GenResult Unit))
        () "convert" 3 =
      (.error (.exn "quota exceeded"), [⟨(), "convert", none⟩]) :=
  generate_with_retry_no_retry (fun _ => GenResult.err "quota exceeded")
    () "convert" "quota exceeded" rfl (by decide)

/-- Claim C4 counterexample: two documents sharing the display name a.pdf,
none of which is present in the File API's file set, are NOT rejected: the
request succeeds and documents are uploaded, contradicting the claim that
such a request fails with a DuplicateName error before any upload.  The
pre-flight check only compares each name against the external listing, which
does not change during pre-flight because uploads happen later. -/
theorem duplicate_names_not_rejected :
    (convert_files env_no_collision ["a.pdf", "a.pdf"] "" false true).result =
      .ok ⟨sync_message, ["a.pdf", "a.pdf"],
        some ["generated html", "generated html"], some ["uri-0", "uri-0"]⟩ ∧
    0 < ((convert_files env_no_collision ["a.pdf", "a.pdf"] "" false true).events.filter
      (fun ev => ev.isUpload)).length := by
  decide

/-- Claim C4 (amended): duplicate display names within one request are not
detected when absent from the external file set; what the pre-flight loop
does guarantee is that the first submitted name whose shortened form
collides with the File API's existing file set aborts the whole request —
in any mode — before any upload or generation call, with an HTTPException
500 (the DuplicateName 400 raised by the check is caught by the loop's own
general handler and re-wrapped) whose detail carries the duplicate-name
message, and no background task is scheduled. -/
theorem preflight_collision_aborts (env : Env F R) (pre post : List String)
    (nm prompt : String) (background return_html : Bool)
    (hpre : ∀ g ∈ pre, file_exists_in_api env.listing (shorten_filename g 40) = false)
    (hnm : file_exists_in_api env.listing (shorten_filename nm 40) = true) :
    (convert_files env (pre ++ nm :: post) prompt background return_html).result =
      .error (.http 500 ("Error processing " ++ nm ++ ": " ++
        str_of_err (.http 400 (duplicate_detail (shorten_filename nm 40))))) ∧
    (∀ ev ∈ (convert_files env (pre ++ nm :: post) prompt background return_html).events,
      ev.isUpload = false ∧ ev.isGen = false) ∧
    (convert_files env (pre ++ nm :: post) prompt background return_html).task = none := by
  have hne : pre ++ nm :: post ≠ [] := by
    cases pre <;> simp
  have hcol := convert_preflight_collision F env.listing env.uuid nm post pre 0 [] []
    hpre hnm
  refine ⟨?_, ?_, ?_⟩
  · simp only [convert_files, if_neg hne, hcol]
  · intro ev hev
    simp only [convert_files, if_neg hne, hcol] at hev
    exact convert_preflight_events_safe F env.listing env.uuid _ 0 [] [] ev hev
  · simp only [convert_files, if_neg hne, hcol]

/-- Claim C4 witness (amended claim): submitting a.pdf and b.pdf while the
File API already holds b.pdf aborts with the wrapped 500 carrying the
duplicate-name message, and schedules nothing. -/
theorem preflight_collision_aborts_witness :
    (convert_files env_existing_b ["a.pdf", "b.pdf"] "" false true).result =
      .error (.http 500 ("Error processing " ++ "b.pdf" ++ ": " ++
        str_of_err (.http 400 (duplicate_detail (shorten_filename "b.pdf" 40))))) ∧
    (convert_files env_existing_b ["a.pdf", "b.pdf"] "" false true).task = none :=
  ⟨(preflight_collision_aborts env_existing_b ["a.pdf"] [] "b.pdf" "" false true
      (by decide) (by decide)).1,
   (preflight_collision_aborts env_existing_b ["a.pdf"] [] "b.pdf" "" false true
      (by decide) (by decide)).2.2⟩

/-- Claim C8: an accepted background-mode submission of N documents answers
immediately with exactly the N accepted (shortened) filenames, performs no
generation call while handling the request (the per-document work is only
scheduled, as the returned task), and the scheduled background processing
never surfaces a failure: whatever the environment does, it continues
through every document (removing each document's temporary file) and
records failures only in its log. -/
theorem background_mode_contract (env : Env F R) (files : List String)
    (prompt : String) (return_html : Bool)
    (hne : files ≠ [])
    (hok : ∀ nm ∈ files, file_exists_in_api env.listing (shorten_filename nm 40) = false) :
    (convert_files env files prompt true return_html).result =
      .ok ⟨background_message, files.map (fun nm => shorten_filename nm 40),
        none, none⟩ ∧
    (files.map (fun nm => shorten_filename nm 40)).length = files.length ∧
    (∀ ev ∈ (convert_files env files prompt true return_html).events,
      ev.isGen = false) ∧
    (convert_files env files prompt true return_html).task =
      some ⟨expected_temp_paths env.uuid 0 files,
        files.map (fun nm => shorten_filename nm 40), prompt⟩ ∧
    (∀ (env2 : Env F R) (paths fns : List String) (prompt2 : String),
      ∀ pd ∈ paths.zip fns,
        Ev.tempRemove pd.1 ∈ (process_pdf_from_paths env2 paths fns prompt2).1) := by
  have hpre := convert_preflight_ok F env.listing env.uuid files 0 [] [] hok
  rw [List.nil_append, List.nil_append] at hpre
  refine ⟨?_, by simp, ?_, ?_, ?_⟩
  · simp only [convert_files, if_neg hne, hpre, if_true]
  · intro ev hev
    simp only [convert_files, if_neg hne, hpre, if_true] at hev
    exact (convert_preflight_events_safe F env.listing env.uuid files 0 [] [] ev hev).2
  · simp only [convert_files, if_neg hne, hpre, if_true]
  · intro env2 paths fns prompt2 pd hpd
    exact process_bg_loop_covers env2 prompt2 (paths.zip fns) 0 pd hpd

/-- Claim C8 witness: one accepted document in background mode is
acknowledged with its filename and its processing is scheduled, not run. -/
theorem background_mode_contract_witness :
    (convert_files env_no_collision ["a.pdf"] "p" true true).result =
      .ok ⟨background_message, ["a.pdf"], none, none⟩ ∧
    (convert_files env_no_collision ["a.pdf"] "p" true true).task =
      some ⟨["temp_u_a.pdf"], ["a.pdf"], "p"⟩ :=
  ⟨(background_mode_contract env_no_collision ["a.pdf"] "p" true
      (by decide) (by decide)).1,
   (background_mode_contract env_no_collision ["a.pdf"] "p" true
      (by decide) (by decide)).2.2.2.1⟩

/-- Claim C9 counterexample: when the upload of the generated HTML fails,
the materialized HTML temporary file is written but never removed — the
claim that both temporary files are removed on every exit path is false. -/
theorem temp_cleanup_counterexample :
    Ev.tempWrite "htmltmp0" ∈
      (process_document env_html_upload_fails 0 "t0" "a.pdf" "p").1 ∧
    Ev.tempRemove "htmltmp0" ∉
      (process_document env_html_upload_fails 0 "t0" "a.pdf" "p").1 := by
  decide

/-- Claim C9 (amended): the saved uploaded-bytes temporary file of a
document is removed as the final action of that document's processing on
every exit path — success, failure, or exception — and both the synchronous
and the background loop finish one document's trace (including that removal)
before any event of the next document; the generated-HTML temporary file is
removed on the success path, but not when its upload to the File API
fails. -/
theorem temp_cleanup_per_document (env : Env F R) (prompt : String) :
    (∀ (i : Nat) (temp_file_path shortened_filename : String),
      ((process_document env i temp_file_path shortened_filename prompt).1).getLast? =
        some (.tempRemove temp_file_path)) ∧
    (∀ (i : Nat) (temp_file_path shortened_filename : String) (v : String × String),
      (process_document env i temp_file_path shortened_filename prompt).2 = .ok v →
      Ev.tempRemove (env.htmlTemp i) ∈
        (process_document env i temp_file_path shortened_filename prompt).1) ∧
    (∀ (return_html : Bool) (i : Nat) (path nm : String)
        (rest : List (String × String)),
      ∃ t, (process_docs_sync env return_html prompt i ((path, nm) :: rest)).1 =
        (process_document env i path nm prompt).1 ++ t) ∧
    (∀ (i : Nat) (path nm : String) (rest : List (String × String)),
      ∃ t, (process_bg_loop env prompt i ((path, nm) :: rest)).1 =
        (process_document env i path nm prompt).1 ++ t) :=
  ⟨fun i p s => process_document_ends_with_remove env i p s prompt,
   fun i p s v h => process_document_ok_removes_html env i p s prompt v h,
   fun rh i p nmm rest => process_docs_sync_head_trace env rh prompt i p nmm rest,
   fun i p nmm rest => process_bg_loop_head_trace env prompt i p nmm rest⟩

/-- Claim C9 witness (amended claim): in a fully successful environment the
per-document trace removes the HTML temporary file. -/
theorem temp_cleanup_per_document_witness :
    Ev.tempRemove "htmltmp0" ∈
      (process_document env_no_collision 0 "t0" "a.pdf" "p").1 :=
  (temp_cleanup_per_document env_no_collision "p").2.1 0 "t0" "a.pdf"
    ("generated html", "uri-0") (by decide)

/-- Claim C10: shorten_filename with bound 40 always returns at most 40
characters; a filename already at most 40 characters long is returned
unchanged; a longer filename whose extension (dot included) is shorter than
40 characters is truncated so the result still ends with that extension; and
the shortened name — not the submitted one — is what a /convert/ request
uses in its response filename list, as the display name of its PDF uploads,
and as the key of the pre-flight collision checks: the pre-flight loop
aborts exactly when a shortened name tests positive against the File API
listing, with the duplicate message naming the shortened name, and succeeds
whenever every shortened name tests negative, whatever the submitted
names. -/
theorem shorten_filename_contract (filename : String) :
    (shorten_filename filename 40).length ≤ 40 ∧
    (filename.length ≤ 40 → shorten_filename filename 40 = filename) ∧
    (40 < filename.length → (splitext filename).2.length < 40 →
      ∃ stem, shorten_filename filename 40 = stem ++ (splitext filename).2) ∧
    (∀ (F R : Type) (env : Env F R) (files : List String) (prompt : String)
        (background return_html : Bool) (resp : ConsolidatedResponse),
      (convert_files env files prompt background return_html).result = .ok resp →
      resp.filenames = files.map (fun nm => shorten_filename nm 40)) ∧
    (∀ (F R : Type) (env : Env F R) (files : List String) (prompt : String)
        (background return_html : Bool) (p dn : String),
      Ev.upload p dn "application/pdf" ∈
        (convert_files env files prompt background return_html).events →
      dn ∈ files.map (fun nm => shorten_filename nm 40)) ∧
    (∀ (F : Type) (listing : Except String (List String)) (uuid : Nat → String)
        (pre post : List String) (nm : String),
      (∀ g ∈ pre, file_exists_in_api listing (shorten_filename g 40) = false) →
      file_exists_in_api listing (shorten_filename nm 40) = true →
      (convert_preflight F listing uuid 0 [] [] (pre ++ nm :: post)).2 =
        .error (.http 500 ("Error processing " ++ nm ++ ": " ++
          str_of_err (.http 400 (duplicate_detail (shorten_filename nm 40)))))) ∧
    (∀ (F : Type) (listing : Except String (List String)) (uuid : Nat → String)
        (files : List String),
      (∀ nm ∈ files, file_exists_in_api listing (shorten_filename nm 40) = false) →
      (convert_preflight F listing uuid 0 [] [] files).2 =
        .ok (files.map (fun nm => shorten_filename nm 40),
          expected_temp_paths uuid 0 files)) := by
  refine ⟨?_, ?_, ?_, ?_, ?_, ?_, ?_⟩
  · simp only [shorten_filename]
    split
    next h => exact h
    next h =>
      split
      next h2 =>
        rw [length_asString_take]
        omega
      next h2 =>
        rw [String.length_append, length_asString_take]
        omega
  · intro hle
    simp only [shorten_filename, if_pos hle]
  · intro hgt hext
    simp only [shorten_filename]
    rw [if_neg (show ¬ filename.length ≤ 40 by omega)]
    rw [if_neg (show ¬ ((40 : Nat) : Int) - ((splitext filename).2.length : Int) ≤ 0
      by omega)]
    exact ⟨_, rfl⟩
  · intro F R env files prompt background return_html resp h
    exact convert_files_ok_filenames env files prompt background return_html resp h
  · intro F R env files prompt background return_html p dn h
    exact convert_files_pdf_upload_names env files prompt background return_html p dn h
  · intro F listing uuid pre post nm hpre hnm
    exact convert_preflight_collision F listing uuid nm post pre 0 [] [] hpre hnm
  · intro F listing uuid files hok
    have h := convert_preflight_ok F listing uuid files 0 [] [] hok
    rw [List.nil_append, List.nil_append] at h
    exact h

/-- Claim C10 witness: a 52-character name is shortened to at most 40
characters and a 5-character name is returned unchanged. -/
theorem shorten_filename_contract_witness :
    (shorten_filename long_name 40).length ≤ 40 ∧
    shorten_filename "a.pdf" 40 = "a.pdf" :=
  ⟨(shorten_filename_contract long_name).1,
   (shorten_filename_contract "a.pdf").2.1 (by decide)⟩

end PdfGemini
